import Mathlib

/-!
Shallow embedding of the NovaVault provisioning scripts
(`src/scripts/circle_final_setup.py`, `src/scripts/python_setup.py`,
`src/scripts/python_use_existing.py`).

Each script reads credentials from the environment, creates a wallet set
through the Circle SDK, then tries a fixed ordered list of
(blockchain, accountType) candidates, creating a wallet on the first one
that succeeds, and persists the resulting identifiers with `update_env`.

The external SDK is modelled as an oracle (`Api`): the outcome of the
one create-wallet-set call and a function from create-wallet requests to
outcomes.  An outcome is either a normal return (carrying the optional
`data` object with its optional `wallets` list, mirroring the Python
truthiness test `if wallet_response.data and wallet_response.data.wallets`),
an `ApiException`, or any other exception.  Console output is modelled as
the list of printed lines that concern the candidate loop and the failure
messages; purely decorative banner lines are not modelled.
-/

namespace NovaVault

/-- Python truthiness of an optional string (`not api_key` is true both for
an absent variable and for the empty string). -/
def truthy : Option String → Bool
  | none => false
  | some s => !(s == "")

/-- A wallet object as returned by the SDK (`wallet.id`, `wallet.address`,
`wallet.blockchain`, `wallet.account_type`, `wallet.state`). -/
structure Wallet where
  id : String
  address : String
  blockchain : String
  accountType : String
  state : String
deriving DecidableEq

/-- The `data` object of a create-wallet response: its `wallets` attribute
may itself be absent (`None`). -/
structure WalletData where
  wallets : Option (List Wallet)
deriving DecidableEq

/-- Outcome of one `wallets_api.create_wallet(...)` call: a normal return
(with optional `data`), an `ApiException`, or any other exception. -/
inductive CallOutcome where
  | ok (data : Option WalletData)
  | apiException
  | otherException
deriving DecidableEq

/-- The wallet the script would select from a call outcome:
`wallet_response.data.wallets[0]` when `wallet_response.data` and
`wallet_response.data.wallets` are both truthy, nothing otherwise. -/
def firstWallet : CallOutcome → Option Wallet
  | .ok (some { wallets := some (w :: _) }) => some w
  | _ => none

/-- The `CreateWalletRequest` built from a candidate:
`{"accountType": .., "blockchains": [..], "count": 1, "walletSetId": ..}`. -/
structure CreateWalletRequest where
  accountType : String
  blockchains : List String
  count : Nat
  walletSetId : String
deriving DecidableEq

/-- A wallet set object (`wallet_set.id`, `wallet_set.custody_type`). -/
structure WalletSet where
  id : String
  custodyType : String
deriving DecidableEq

/-- Outcome of the one `create_wallet_set` call. -/
inductive WalletSetOutcome where
  | ok (ws : WalletSet)
  | apiException
  | otherException
deriving DecidableEq

/-- The external Circle service, as an oracle: whether registering the
entity secret succeeds (used by `python_setup.py` only), the outcome of
the create-wallet-set call, and the outcome of each create-wallet request.
The wallet-set name (`NovaVault-` plus random hex) does not influence the
model. -/
structure Api where
  registerOk : Bool
  createWalletSet : WalletSetOutcome
  createWallet : CreateWalletRequest → CallOutcome

/-- The process environment: the two optional credential variables read
via `os.getenv`. -/
structure Env where
  apiKey : Option String
  entitySecret : Option String
deriving DecidableEq

/-- A (blockchain, accountType) candidate pair. -/
abbrev Cand := String × String

/-- The request the loop body builds for a candidate. -/
def mkReq (walletSetId : String) (c : Cand) : CreateWalletRequest :=
  { accountType := c.2, blockchains := [c.1], count := 1,
    walletSetId := walletSetId }

/-- The candidate list of `circle_final_setup.py` (lines 69-74). -/
def blockchainsFinal : List Cand :=
  [("MATIC-AMOY", "SCA"),
   ("ETH-SEPOLIA", "EOA"),
   ("AVAX-FUJI", "EOA"),
   ("ARB-SEPOLIA", "EOA")]

/-- The candidate list of `python_setup.py` (lines 90-95). -/
def blockchainsSetup : List Cand :=
  [("MATIC-AMOY", "SCA"),
   ("ETH-SEPOLIA", "EOA"),
   ("AVAX-FUJI", "EOA"),
   ("ARB-SEPOLIA", "EOA")]

/-- The candidate list of `python_use_existing.py` (lines 70-74): three
entries only, without ARB-SEPOLIA. -/
def blockchainsUseExisting : List Cand :=
  [("MATIC-AMOY", "SCA"),
   ("ETH-SEPOLIA", "EOA"),
   ("AVAX-FUJI", "EOA")]

/-- The per-attempt line of `circle_final_setup.py` and `python_setup.py`:
`f"   Trying {blockchain} ({account_type})..."`. -/
def tryLineFull (c : Cand) : String :=
  let blockchain := c.1
  let accountType := c.2
  s!"   Trying {blockchain} ({accountType})..."

/-- The per-attempt line of `python_use_existing.py`:
`f"   Trying {blockchain}..."`. -/
def tryLineShort (c : Cand) : String :=
  let blockchain := c.1
  s!"   Trying {blockchain}..."

/-- Result of the candidate loop: a selected wallet together with the
`used_blockchain` variable, exhaustion of the list, or an uncaught
exception escaping the loop. -/
inductive LoopResult where
  | found (w : Wallet) (usedBlockchain : String)
  | exhausted
  | raised
deriving DecidableEq

/-- The candidate fallback loop shared by the three scripts.

`catchAll` is `true` for `python_setup.py` and `python_use_existing.py`
(`except Exception`) and `false` for `circle_final_setup.py`, whose loop
catches only `ApiException`, so any other exception escapes the loop.
`tryMsg` and `failMsg` are the script's per-attempt and per-failure
print lines.

Returns the create-wallet requests issued in order, the printed lines,
and the loop result.  On a normal return whose data/wallets guard is
falsy the loop simply falls through to the next candidate (no failure
line is printed). -/
def walletLoop (catchAll : Bool) (tryMsg : Cand → String) (failMsg : String)
    (api : CreateWalletRequest → CallOutcome) (walletSetId : String) :
    List Cand → List CreateWalletRequest × List String × LoopResult
  | [] => ([], [], .exhausted)
  | c :: rest =>
    let req := mkReq walletSetId c
    match api req with
    | .ok (some { wallets := some (w :: _) }) =>
        ([req], [tryMsg c, "   ✅ Success!\n"], .found w c.1)
    | .ok _ =>
        let r := walletLoop catchAll tryMsg failMsg api walletSetId rest
        (req :: r.1, tryMsg c :: r.2.1, r.2.2)
    | .apiException =>
        let r := walletLoop catchAll tryMsg failMsg api walletSetId rest
        (req :: r.1, tryMsg c :: failMsg :: r.2.1, r.2.2)
    | .otherException =>
        if catchAll then
          let r := walletLoop catchAll tryMsg failMsg api walletSetId rest
          (req :: r.1, tryMsg c :: failMsg :: r.2.1, r.2.2)
        else
          ([req], [tryMsg c], .raised)

/-- Network operations issued by a run, in order. -/
inductive ApiOp where
  | registerEntitySecret
  | createWalletSet
  | createWallet (req : CreateWalletRequest)
deriving DecidableEq

/-- The create-wallet requests among a run's operations, in order. -/
def walletCalls (ops : List ApiOp) : List CreateWalletRequest :=
  ops.filterMap fun o =>
    match o with
    | .createWallet r => some r
    | _ => none

/-- Observable result of one run of a script's `main`:
the value `main` returns (`none` models a bare `return` / falling off the
end, i.e. Python `None`), whether an SDK client object was constructed,
the network operations issued in order, the `update_env` writes in order,
the `wallet` variable at the end of the run, and the modelled printed
lines. -/
structure RunResult where
  mainReturn : Option Nat
  clientConstructed : Bool
  ops : List ApiOp
  envWrites : List (String × String)
  wallet : Option Wallet
  output : List String
deriving DecidableEq

/-- Exhaustion message of `circle_final_setup.py` and `python_setup.py`. -/
def exhaustMsgFinal : String := "❌ Could not create wallet on any blockchain"

/-- Exhaustion message of `python_use_existing.py`. -/
def exhaustMsgUseExisting : String := "❌ Could not create wallet"

/-- `main` of `circle_final_setup.py`.  Credentials are checked first
(`if not api_key or not entity_secret: return 1`); then the client is
constructed, the wallet set is created (its id written to the store), the
candidate loop runs catching only `ApiException`, and on success the three
wallet keys are written and `main` returns 0.  An `ApiException` or any
other exception outside the loop reaches the outer handlers, which both
return 1. -/
def mainFinal (e : Env) (a : Api) : RunResult :=
  if truthy e.apiKey && truthy e.entitySecret then
    match a.createWalletSet with
    | .ok ws =>
      let r := walletLoop false tryLineFull "   ❌ Not available\n"
        a.createWallet ws.id blockchainsFinal
      let ops := ApiOp.createWalletSet :: r.1.map ApiOp.createWallet
      match r.2.2 with
      | .found w _ =>
          { mainReturn := some 0, clientConstructed := true, ops := ops,
            envWrites := [("CIRCLE_WALLET_SET_ID", ws.id),
                          ("CIRCLE_WALLET_ID", w.id),
                          ("CIRCLE_WALLET_ADDRESS", w.address),
                          ("CIRCLE_WALLET_BLOCKCHAIN", w.blockchain)],
            wallet := some w, output := r.2.1 }
      | .exhausted =>
          { mainReturn := some 1, clientConstructed := true, ops := ops,
            envWrites := [("CIRCLE_WALLET_SET_ID", ws.id)],
            wallet := none, output := r.2.1 ++ [exhaustMsgFinal] }
      | .raised =>
          { mainReturn := some 1, clientConstructed := true, ops := ops,
            envWrites := [("CIRCLE_WALLET_SET_ID", ws.id)],
            wallet := none, output := r.2.1 }
    | .apiException =>
        { mainReturn := some 1, clientConstructed := true,
          ops := [.createWalletSet], envWrites := [], wallet := none,
          output := [] }
    | .otherException =>
        { mainReturn := some 1, clientConstructed := true,
          ops := [.createWalletSet], envWrites := [], wallet := none,
          output := [] }
  else
    { mainReturn := some 1, clientConstructed := false, ops := [],
      envWrites := [], wallet := none,
      output := ["❌ Missing credentials in .env"] }

/-- `main` of `python_setup.py`.  Only the API key is checked (a missing
key hits a bare `return`, i.e. returns `None`); the entity secret is
freshly generated (`gen` models `secrets.token_hex(32)`) and registered
over the network before any client is constructed.  The loop catches every
exception.  Success falls off the end of `main` (returns `None`);
exhaustion is a bare `return`; only the outer `except Exception` handler
returns 1. -/
def mainSetup (e : Env) (a : Api) (gen : String) : RunResult :=
  if truthy e.apiKey then
    if a.registerOk then
      match a.createWalletSet with
      | .ok ws =>
        let r := walletLoop true tryLineFull "   ❌ Not available\n"
          a.createWallet ws.id blockchainsSetup
        let ops := ApiOp.registerEntitySecret :: ApiOp.createWalletSet ::
          r.1.map ApiOp.createWallet
        let writes := [("CIRCLE_ENTITY_SECRET", gen),
                       ("CIRCLE_WALLET_SET_ID", ws.id)]
        match r.2.2 with
        | .found w _ =>
            { mainReturn := none, clientConstructed := true, ops := ops,
              envWrites := writes ++
                [("CIRCLE_WALLET_ID", w.id),
                 ("CIRCLE_WALLET_ADDRESS", w.address),
                 ("CIRCLE_WALLET_BLOCKCHAIN", w.blockchain)],
              wallet := some w, output := r.2.1 }
        | .exhausted =>
            { mainReturn := none, clientConstructed := true, ops := ops,
              envWrites := writes, wallet := none,
              output := r.2.1 ++ [exhaustMsgFinal] }
        | .raised =>
            { mainReturn := some 1, clientConstructed := true, ops := ops,
              envWrites := writes, wallet := none, output := r.2.1 }
      | .apiException =>
          { mainReturn := some 1, clientConstructed := true,
            ops := [.registerEntitySecret, .createWalletSet],
            envWrites := [("CIRCLE_ENTITY_SECRET", gen)], wallet := none,
            output := [] }
      | .otherException =>
          { mainReturn := some 1, clientConstructed := true,
            ops := [.registerEntitySecret, .createWalletSet],
            envWrites := [("CIRCLE_ENTITY_SECRET", gen)], wallet := none,
            output := [] }
    else
      { mainReturn := some 1, clientConstructed := false,
        ops := [.registerEntitySecret], envWrites := [], wallet := none,
        output := [] }
  else
    { mainReturn := none, clientConstructed := false, ops := [],
      envWrites := [], wallet := none,
      output := ["❌ Missing CIRCLE_API_KEY in .env"] }

/-- `main` of `python_use_existing.py`.  Both credentials are checked
(a missing one hits a bare `return`); the loop catches every exception;
success falls off the end, exhaustion is a bare `return`, and the outer
`except Exception` handler prints a traceback without returning a value —
so `main` always returns `None`. -/
def mainUseExisting (e : Env) (a : Api) : RunResult :=
  if truthy e.apiKey && truthy e.entitySecret then
    match a.createWalletSet with
    | .ok ws =>
      let r := walletLoop true tryLineShort "   ❌ Failed\n"
        a.createWallet ws.id blockchainsUseExisting
      let ops := ApiOp.createWalletSet :: r.1.map ApiOp.createWallet
      match r.2.2 with
      | .found w _ =>
          { mainReturn := none, clientConstructed := true, ops := ops,
            envWrites := [("CIRCLE_WALLET_SET_ID", ws.id),
                          ("CIRCLE_WALLET_ID", w.id),
                          ("CIRCLE_WALLET_ADDRESS", w.address),
                          ("CIRCLE_WALLET_BLOCKCHAIN", w.blockchain)],
            wallet := some w, output := r.2.1 }
      | .exhausted =>
          { mainReturn := none, clientConstructed := true, ops := ops,
            envWrites := [("CIRCLE_WALLET_SET_ID", ws.id)],
            wallet := none, output := r.2.1 ++ [exhaustMsgUseExisting] }
      | .raised =>
          { mainReturn := none, clientConstructed := true, ops := ops,
            envWrites := [("CIRCLE_WALLET_SET_ID", ws.id)],
            wallet := none, output := r.2.1 }
    | .apiException =>
        { mainReturn := none, clientConstructed := true,
          ops := [.createWalletSet], envWrites := [], wallet := none,
          output := [] }
    | .otherException =>
        { mainReturn := none, clientConstructed := true,
          ops := [.createWalletSet], envWrites := [], wallet := none,
          output := [] }
  else
    { mainReturn := none, clientConstructed := false, ops := [],
      envWrites := [], wallet := none,
      output := ["❌ Missing credentials in .env"] }

/-- Python `exit(v)` for `v` the value returned by `main`: an integer is
the exit code, `exit(None)` exits 0. -/
def exitOf : Option Nat → Nat
  | some n => n
  | none => 0

/-- `__main__` of `circle_final_setup.py` is `exit(main())`: the process
exit code is `main`'s return value. -/
def processExitFinal (e : Env) (a : Api) : Nat :=
  exitOf (mainFinal e a).mainReturn

/-- `__main__` evaluating a bare `main()` call: the return value is
discarded and the interpreter exits 0 (the modelled `main` never lets an
exception escape). -/
def discardedReturn (_ : Option Nat) : Nat := 0

/-- `__main__` of `python_setup.py` is `main()` without `exit`: the
process exit code is always 0. -/
def processExitSetup (e : Env) (a : Api) (gen : String) : Nat :=
  discardedReturn (mainSetup e a gen).mainReturn

/-- `__main__` of `python_use_existing.py` is `main()` without `exit`:
the process exit code is always 0. -/
def processExitUseExisting (e : Env) (a : Api) : Nat :=
  discardedReturn (mainUseExisting e a).mainReturn

/-- The local configuration store (`.env` file) as a key/value mapping. -/
def EnvStore := String → Option String

/-- One `update_env(key, value)` call: `dotenv.set_key` sets `key` to
`value`, overwriting any previous value. -/
def setKey (σ : EnvStore) (k v : String) : EnvStore :=
  fun q => if q = k then some v else σ q

/-- Apply a run's `update_env` writes to a store, in order. -/
def applyWrites (writes : List (String × String)) (σ : EnvStore) : EnvStore :=
  writes.foldl (fun τ kv => setKey τ kv.1 kv.2) σ

/-- Modelled from the spec: reloading the persisted configuration store
yields the stored mapping unchanged (the `dotenv` `set_key`/`load_dotenv`
file round-trip happens in the library, outside this repository's code). -/
def reloadStore (σ : EnvStore) : EnvStore := σ

/-- `needle` is a contiguous infix of a character list. -/
def containsSeq (needle : List Char) : List Char → Bool
  | [] => needle.isEmpty
  | c :: rest => needle.isPrefixOf (c :: rest) || containsSeq needle rest

/-- `needle` occurs as a substring of `hay`: its character list is a
contiguous infix of `hay`'s character list. -/
def mentions (hay needle : String) : Bool :=
  containsSeq needle.data hay.data

/-- A per-candidate failure the script's loop survives: the outcome
selects no wallet and, when it is an exception, it is one the loop
catches (`catchAll = false` restricts to `ApiException`, as in
`circle_final_setup.py`). -/
def perCandidateFailure (catchAll : Bool) (o : CallOutcome) : Bool :=
  (firstWallet o).isNone &&
    (match o with
     | .otherException => catchAll
     | _ => true)

/-- Concrete fixture: a wallet as the service could return it. -/
def wTest : Wallet :=
  { id := "w-1", address := "0xabc", blockchain := "ETH-SEPOLIA",
    accountType := "EOA", state := "LIVE" }

/-- Concrete fixture: a wallet whose `blockchain` field differs from
every candidate's network name. -/
def wOdd : Wallet :=
  { id := "w-2", address := "0xdef", blockchain := "ODD-CHAIN",
    accountType := "EOA", state := "LIVE" }

/-- Concrete fixture: a wallet set. -/
def wsTest : WalletSet := { id := "ws-1", custodyType := "DEVELOPER" }

/-- Concrete fixture: environment with both credentials present. -/
def envFull : Env := { apiKey := some "key", entitySecret := some "sec" }

/-- Concrete fixture: environment with no credentials. -/
def envEmpty : Env := { apiKey := none, entitySecret := none }

/-- Concrete fixture: every create-wallet call raises `ApiException`. -/
def apiAllApiFail : Api :=
  { registerOk := true, createWalletSet := .ok wsTest,
    createWallet := fun _ => .apiException }

/-- Concrete fixture: every create-wallet call returns normally with an
empty wallet list. -/
def apiAllEmptyOk : Api :=
  { registerOk := true, createWalletSet := .ok wsTest,
    createWallet := fun _ => .ok (some { wallets := some [] }) }

/-- Concrete fixture: MATIC-AMOY raises `ApiException`, every other
request succeeds with the single wallet `w`. -/
def apiSecondSucceeds (w : Wallet) : Api :=
  { registerOk := true, createWalletSet := .ok wsTest,
    createWallet := fun r =>
      if r.blockchains = ["MATIC-AMOY"] then .apiException
      else .ok (some { wallets := some [w] }) }

/-- Concrete fixture: MATIC-AMOY raises a non-`ApiException` error,
every other request succeeds with the single wallet `wTest`. -/
def apiFirstRaisesOther : Api :=
  { registerOk := true, createWalletSet := .ok wsTest,
    createWallet := fun r =>
      if r.blockchains = ["MATIC-AMOY"] then .otherException
      else .ok (some { wallets := some [wTest] }) }

/-- Concrete fixture: ARB-SEPOLIA raises a non-`ApiException` error,
every other request raises `ApiException`. -/
def apiLastRaisesOther : Api :=
  { registerOk := true, createWalletSet := .ok wsTest,
    createWallet := fun r =>
      if r.blockchains = ["ARB-SEPOLIA"] then .otherException
      else .apiException }

/-- The outcome is a normal (non-raising) return. -/
def returnsNormally : CallOutcome → Bool
  | .ok _ => true
  | _ => false

/-- No wallet was selected and none of the three wallet keys was written. -/
def noWalletWritten (r : RunResult) : Prop :=
  r.wallet = none ∧ ∀ kv ∈ r.envWrites,
    kv.1 ≠ "CIRCLE_WALLET_ID" ∧ kv.1 ≠ "CIRCLE_WALLET_ADDRESS" ∧
    kv.1 ≠ "CIRCLE_WALLET_BLOCKCHAIN"

theorem perCandidateFailure_firstWallet {ca : Bool} {o : CallOutcome}
    (h : perCandidateFailure ca o = true) : firstWallet o = none := by
  have := (Bool.and_eq_true _ _).mp h
  exact Option.isNone_iff_eq_none.mp this.1

theorem walletLoop_step_success (ca : Bool) (tm : Cand → String) (fm : String)
    (api : CreateWalletRequest → CallOutcome) (ws : String) (c : Cand)
    (l : List Cand) (w : Wallet)
    (h : firstWallet (api (mkReq ws c)) = some w) :
    walletLoop ca tm fm api ws (c :: l) =
      ([mkReq ws c], [tm c, "   ✅ Success!\n"], .found w c.1) := by
  rcases ho : api (mkReq ws c) with d | _ | _ <;>
    rw [ho] at h <;> simp only [firstWallet] at h
  · rcases d with _ | ⟨_ | ⟨_ | ⟨w', t⟩⟩⟩ <;>
      simp only [firstWallet] at h <;>
      simp_all [walletLoop]
  · exact absurd h (by simp)
  · exact absurd h (by simp)

theorem walletLoop_step_skip (ca : Bool) (tm : Cand → String) (fm : String)
    (api : CreateWalletRequest → CallOutcome) (ws : String) (c : Cand)
    (l : List Cand)
    (h : perCandidateFailure ca (api (mkReq ws c)) = true) :
    ∃ t : List String,
      walletLoop ca tm fm api ws (c :: l) =
        (mkReq ws c :: (walletLoop ca tm fm api ws l).1,
         tm c :: (t ++ (walletLoop ca tm fm api ws l).2.1),
         (walletLoop ca tm fm api ws l).2.2) := by
  have hw : firstWallet (api (mkReq ws c)) = none :=
    perCandidateFailure_firstWallet h
  rcases ho : api (mkReq ws c) with d | _ | _
  · rcases d with _ | ⟨_ | ⟨_ | ⟨w', t⟩⟩⟩
    · exact ⟨[], by simp [walletLoop, ho]⟩
    · exact ⟨[], by simp [walletLoop, ho]⟩
    · exact ⟨[], by simp [walletLoop, ho]⟩
    · rw [ho] at hw; simp [firstWallet] at hw
  · exact ⟨[fm], by simp [walletLoop, ho]⟩
  · have hca : ca = true := by
      rw [ho] at h; simpa [perCandidateFailure, firstWallet] using h
    exact ⟨[fm], by simp [walletLoop, ho, hca]⟩

theorem walletLoop_step_abort (tm : Cand → String) (fm : String)
    (api : CreateWalletRequest → CallOutcome) (ws : String) (c : Cand)
    (l : List Cand)
    (h : api (mkReq ws c) = .otherException) :
    walletLoop false tm fm api ws (c :: l) = ([mkReq ws c], [tm c], .raised) := by
  simp [walletLoop, h]

theorem outcome_trichotomy (ca : Bool) (o : CallOutcome) :
    (∃ w, firstWallet o = some w) ∨ perCandidateFailure ca o = true ∨
      (o = .otherException ∧ ca = false) := by
  rcases o with d | _ | _
  · rcases d with _ | ⟨_ | ⟨_ | ⟨w, t⟩⟩⟩
    · right; left; simp [perCandidateFailure, firstWallet]
    · right; left; simp [perCandidateFailure, firstWallet]
    · right; left; simp [perCandidateFailure, firstWallet]
    · left; exact ⟨w, rfl⟩
  · right; left; simp [perCandidateFailure, firstWallet]
  · cases ca
    · right; right; exact ⟨rfl, rfl⟩
    · right; left; simp [perCandidateFailure, firstWallet]

theorem walletLoop_all_fail (ca : Bool) (tm : Cand → String) (fm : String)
    (api : CreateWalletRequest → CallOutcome) (ws : String) :
    ∀ l : List Cand,
      (∀ c ∈ l, perCandidateFailure ca (api (mkReq ws c)) = true) →
      (walletLoop ca tm fm api ws l).1 = l.map (mkReq ws) ∧
      (walletLoop ca tm fm api ws l).2.2 = .exhausted ∧
      ∀ c ∈ l, tm c ∈ (walletLoop ca tm fm api ws l).2.1
  | [], _ => by simp [walletLoop]
  | c :: rest, h => by
    obtain ⟨ih1, ih2, ih3⟩ := walletLoop_all_fail ca tm fm api ws rest
      (fun c' hc' => h c' (List.mem_cons_of_mem _ hc'))
    obtain ⟨t, ht⟩ := walletLoop_step_skip ca tm fm api ws c rest
      (h c (List.mem_cons_self c rest))
    refine ⟨?_, ?_, ?_⟩
    · rw [ht]; simp [ih1]
    · rw [ht]; exact ih2
    · intro c' hc'
      rw [ht]
      rcases List.mem_cons.mp hc' with hc' | hc'
      · subst hc'; exact List.mem_cons_self _ _
      · exact List.mem_cons_of_mem _ (List.mem_append_right _ (ih3 c' hc'))

theorem walletLoop_first_success (ca : Bool) (tm : Cand → String) (fm : String)
    (api : CreateWalletRequest → CallOutcome) (ws : String) :
    ∀ (pre : List Cand) (c : Cand) (rest : List Cand) (w : Wallet),
      (∀ p ∈ pre, perCandidateFailure ca (api (mkReq ws p)) = true) →
      firstWallet (api (mkReq ws c)) = some w →
      (walletLoop ca tm fm api ws (pre ++ c :: rest)).1 =
        (pre ++ [c]).map (mkReq ws) ∧
      (walletLoop ca tm fm api ws (pre ++ c :: rest)).2.2 = .found w c.1
  | [], c, rest, w, _, hc => by
    rw [List.nil_append, walletLoop_step_success ca tm fm api ws c rest w hc]
    simp
  | p :: pre, c, rest, w, hpre, hc => by
    obtain ⟨ih1, ih2⟩ := walletLoop_first_success ca tm fm api ws pre c rest w
      (fun p' hp' => hpre p' (List.mem_cons_of_mem _ hp')) hc
    obtain ⟨t, ht⟩ := walletLoop_step_skip ca tm fm api ws p (pre ++ c :: rest)
      (hpre p (List.mem_cons_self p pre))
    rw [List.cons_append, ht]
    simp [ih1, ih2]

theorem walletLoop_calls_take (ca : Bool) (tm : Cand → String) (fm : String)
    (api : CreateWalletRequest → CallOutcome) (ws : String) :
    ∀ l : List Cand, ∃ k, k ≤ l.length ∧
      (walletLoop ca tm fm api ws l).1 = (l.take k).map (mkReq ws) ∧
      ∀ r ∈ (walletLoop ca tm fm api ws l).1.dropLast,
        firstWallet (api r) = none
  | [] => ⟨0, by simp [walletLoop]⟩
  | c :: rest => by
    obtain ⟨k, hk, hcalls, hdrop⟩ := walletLoop_calls_take ca tm fm api ws rest
    rcases outcome_trichotomy ca (api (mkReq ws c)) with ⟨w, hw⟩ | hskip | ⟨ho, hca⟩
    · refine ⟨1, by simp, ?_, ?_⟩
      · rw [walletLoop_step_success ca tm fm api ws c rest w hw]; simp
      · rw [walletLoop_step_success ca tm fm api ws c rest w hw]; simp
    · obtain ⟨t, ht⟩ := walletLoop_step_skip ca tm fm api ws c rest hskip
      refine ⟨k + 1, Nat.succ_le_succ hk, ?_, ?_⟩
      · rw [ht]; simp [hcalls]
      · rw [ht]
        intro r hr
        rcases hrest : (walletLoop ca tm fm api ws rest).1 with _ | ⟨x, xs⟩
        · rw [hrest] at hr; simp at hr
        · rw [hrest] at hr
          rw [List.dropLast_cons_of_ne_nil (by simp)] at hr
          rcases List.mem_cons.mp hr with hr | hr
          · subst hr; exact perCandidateFailure_firstWallet hskip
          · rw [hrest] at hdrop; exact hdrop r hr
    · subst hca
      refine ⟨1, by simp, ?_, ?_⟩
      · rw [walletLoop_step_abort tm fm api ws c rest ho]; simp
      · rw [walletLoop_step_abort tm fm api ws c rest ho]; simp

theorem walletCalls_cons_map (l : List CreateWalletRequest) :
    walletCalls (ApiOp.createWalletSet :: l.map ApiOp.createWallet) = l := by
  simp [walletCalls, List.filterMap_cons, List.filterMap_map]
  exact List.filterMap_some l

theorem count_walletSet_map (l : List CreateWalletRequest) :
    (l.map ApiOp.createWallet).count ApiOp.createWalletSet = 0 := by
  rw [List.count_eq_zero]
  simp

/-- C9 counterexample: the candidate list of `python_use_existing.py` is
not the four-element list named by the claim — at an all-failing oracle it
issues only three create-wallet calls and never tries ARB-SEPOLIA. -/
theorem C9_counterexample :
    blockchainsUseExisting ≠
      [("MATIC-AMOY", "SCA"), ("ETH-SEPOLIA", "EOA"),
       ("AVAX-FUJI", "EOA"), ("ARB-SEPOLIA", "EOA")] ∧
    walletCalls (mainUseExisting envFull apiAllApiFail).ops =
      [mkReq "ws-1" ("MATIC-AMOY", "SCA"), mkReq "ws-1" ("ETH-SEPOLIA", "EOA"),
       mkReq "ws-1" ("AVAX-FUJI", "EOA")] ∧
    mkReq "ws-1" ("ARB-SEPOLIA", "EOA") ∉
      walletCalls (mainUseExisting envFull apiAllApiFail).ops := by
  decide

/-- C9 amended: `circle_final_setup.py` and `python_setup.py` use the
static ordered list [(MATIC-AMOY, SCA), (ETH-SEPOLIA, EOA),
(AVAX-FUJI, EOA), (ARB-SEPOLIA, EOA)]; `python_use_existing.py` uses only
its first three entries, omitting (ARB-SEPOLIA, EOA). -/
theorem C9_amended :
    blockchainsFinal =
      [("MATIC-AMOY", "SCA"), ("ETH-SEPOLIA", "EOA"),
       ("AVAX-FUJI", "EOA"), ("ARB-SEPOLIA", "EOA")] ∧
    blockchainsSetup = blockchainsFinal ∧
    blockchainsUseExisting = blockchainsFinal.take 3 := by
  decide

/-- C4 counterexample: with both credentials missing,
`python_setup.py` and `python_use_existing.py` exit with code 0, not 1:
their `__main__` blocks call `main()` without passing the result to
`exit`. -/
theorem C4_counterexample :
    truthy envEmpty.apiKey = false ∧ truthy envEmpty.entitySecret = false ∧
    processExitSetup envEmpty apiAllApiFail "gen" = 0 ∧
    processExitUseExisting envEmpty apiAllApiFail = 0 := by
  decide

/-- C4 amended: `circle_final_setup.py` (whose `__main__` is
`exit(main())`) exits 0 exactly when a wallet was provisioned and 1
otherwise (missing credentials, API failure, exhaustion);
`python_setup.py` and `python_use_existing.py` always exit 0 because
`__main__` discards `main`'s return value. -/
theorem C4_amended (e : Env) (a : Api) (gen : String) :
    processExitFinal e a =
      (if (mainFinal e a).wallet.isSome then 0 else 1) ∧
    processExitSetup e a gen = 0 ∧
    processExitUseExisting e a = 0 := by
  refine ⟨?_, rfl, rfl⟩
  cases hcred : truthy e.apiKey && truthy e.entitySecret
  · simp [processExitFinal, mainFinal, hcred, exitOf]
  · rcases hws : a.createWalletSet with ws | _ | _
    · rcases hL : walletLoop false tryLineFull "   ❌ Not available\n"
        a.createWallet ws.id blockchainsFinal with ⟨calls, out, res⟩
      rcases res with ⟨w, b⟩ | _ | _ <;>
        simp [processExitFinal, mainFinal, hcred, hws, hL, exitOf]
    · simp [processExitFinal, mainFinal, hcred, hws, exitOf]
    · simp [processExitFinal, mainFinal, hcred, hws, exitOf]

/-- C4 witness: the amended exit codes at a concrete missing-credentials
environment. -/
theorem C4_witness :
    processExitFinal envEmpty apiAllApiFail =
      (if (mainFinal envEmpty apiAllApiFail).wallet.isSome then 0 else 1) ∧
    processExitSetup envEmpty apiAllApiFail "gen" = 0 ∧
    processExitUseExisting envEmpty apiAllApiFail = 0 :=
  C4_amended envEmpty apiAllApiFail "gen"

/-- C5: when a required credential is absent — either of the two for
`circle_final_setup.py` and `python_use_existing.py`, the API key for
`python_setup.py` (the only one it requires) — `main` returns before
constructing an SDK client and before issuing any network operation. -/
theorem C5_missing_credentials (e : Env) (a : Api) (gen : String)
    (h : (truthy e.apiKey && truthy e.entitySecret) = false) :
    ((mainFinal e a).ops = [] ∧ (mainFinal e a).clientConstructed = false ∧
      (mainFinal e a).mainReturn = some 1) ∧
    ((mainUseExisting e a).ops = [] ∧
      (mainUseExisting e a).clientConstructed = false ∧
      (mainUseExisting e a).mainReturn = none) ∧
    (truthy e.apiKey = false →
      (mainSetup e a gen).ops = [] ∧
      (mainSetup e a gen).clientConstructed = false ∧
      (mainSetup e a gen).mainReturn = none) := by
  refine ⟨?_, ?_, ?_⟩
  · simp [mainFinal, h]
  · simp [mainUseExisting, h]
  · intro hk
    simp [mainSetup, hk]

/-- C5 witness: with an empty environment, no script constructs a client
or issues a network call. -/
theorem C5_witness :
    ((mainFinal envEmpty apiAllApiFail).ops = [] ∧
      (mainFinal envEmpty apiAllApiFail).clientConstructed = false ∧
      (mainFinal envEmpty apiAllApiFail).mainReturn = some 1) ∧
    ((mainUseExisting envEmpty apiAllApiFail).ops = [] ∧
      (mainUseExisting envEmpty apiAllApiFail).clientConstructed = false ∧
      (mainUseExisting envEmpty apiAllApiFail).mainReturn = none) ∧
    (truthy envEmpty.apiKey = false →
      (mainSetup envEmpty apiAllApiFail "gen").ops = [] ∧
      (mainSetup envEmpty apiAllApiFail "gen").clientConstructed = false ∧
      (mainSetup envEmpty apiAllApiFail "gen").mainReturn = none) :=
  C5_missing_credentials envEmpty apiAllApiFail "gen" (by decide)

/-- C1 counterexample: in `circle_final_setup.py`, when the first
candidate's call raises an error that is not an `ApiException` and the
second candidate's call would return a non-empty wallet list (N = 2), the
loop issues one call, not two, and aborts instead of returning the second
response's first wallet: its loop advances only on `ApiException`. -/
theorem C1_counterexample :
    apiFirstRaisesOther.createWallet (mkReq "ws-1" ("MATIC-AMOY", "SCA")) =
      .otherException ∧
    firstWallet (apiFirstRaisesOther.createWallet
      (mkReq "ws-1" ("ETH-SEPOLIA", "EOA"))) = some wTest ∧
    (walletLoop false tryLineFull "   ❌ Not available\n"
      apiFirstRaisesOther.createWallet "ws-1" blockchainsFinal).1.length = 1 ∧
    (walletLoop false tryLineFull "   ❌ Not available\n"
      apiFirstRaisesOther.createWallet "ws-1" blockchainsFinal).2.2 =
      .raised := by
  decide

/-- C1 amended: for every candidate list in which the Nth candidate's
call returns a non-empty wallet list and every earlier candidate's call
fails in a way the loop survives (`perCandidateFailure`: any caught
exception, or a normal return selecting no wallet — only `ApiException`
counts as caught when `catchAll = false`, as in `circle_final_setup.py`),
the loop issues exactly N create-wallet calls, in list order, and returns
the first wallet of the Nth call's response. -/
theorem C1_amended (ca : Bool) (tm : Cand → String) (fm : String)
    (api : CreateWalletRequest → CallOutcome) (ws : String)
    (pre : List Cand) (c : Cand) (rest : List Cand) (w : Wallet)
    (hpre : ∀ p ∈ pre, perCandidateFailure ca (api (mkReq ws p)) = true)
    (hc : firstWallet (api (mkReq ws c)) = some w) :
    (walletLoop ca tm fm api ws (pre ++ c :: rest)).1 =
      (pre ++ [c]).map (mkReq ws) ∧
    (walletLoop ca tm fm api ws (pre ++ c :: rest)).1.length =
      pre.length + 1 ∧
    (walletLoop ca tm fm api ws (pre ++ c :: rest)).2.2 = .found w c.1 := by
  obtain ⟨h1, h2⟩ := walletLoop_first_success ca tm fm api ws pre c rest w hpre hc
  exact ⟨h1, by rw [h1]; simp, h2⟩

/-- C1 witness: with MATIC-AMOY raising `ApiException` and ETH-SEPOLIA
succeeding (N = 2), the `circle_final_setup.py` loop issues two calls in
order and returns the second response's first wallet. -/
theorem C1_witness :
    (walletLoop false tryLineFull "   ❌ Not available\n"
      (apiSecondSucceeds wTest).createWallet "ws-1"
      ([("MATIC-AMOY", "SCA")] ++ ("ETH-SEPOLIA", "EOA") ::
        [("AVAX-FUJI", "EOA"), ("ARB-SEPOLIA", "EOA")])).1 =
      ([("MATIC-AMOY", "SCA")] ++ [("ETH-SEPOLIA", "EOA")]).map
        (mkReq "ws-1") ∧
    (walletLoop false tryLineFull "   ❌ Not available\n"
      (apiSecondSucceeds wTest).createWallet "ws-1"
      ([("MATIC-AMOY", "SCA")] ++ ("ETH-SEPOLIA", "EOA") ::
        [("AVAX-FUJI", "EOA"), ("ARB-SEPOLIA", "EOA")])).1.length =
      [("MATIC-AMOY", "SCA")].length + 1 ∧
    (walletLoop false tryLineFull "   ❌ Not available\n"
      (apiSecondSucceeds wTest).createWallet "ws-1"
      ([("MATIC-AMOY", "SCA")] ++ ("ETH-SEPOLIA", "EOA") ::
        [("AVAX-FUJI", "EOA"), ("ARB-SEPOLIA", "EOA")])).2.2 =
      .found wTest ("ETH-SEPOLIA", "EOA").1 :=
  C1_amended false tryLineFull "   ❌ Not available\n"
    (apiSecondSucceeds wTest).createWallet "ws-1"
    [("MATIC-AMOY", "SCA")] ("ETH-SEPOLIA", "EOA")
    [("AVAX-FUJI", "EOA"), ("ARB-SEPOLIA", "EOA")] wTest
    (by decide) (by decide)

/-- C2: in every run of `circle_final_setup.py` and
`python_use_existing.py`, at most one create-wallet-set call is issued and
it precedes every create-wallet call; the create-wallet calls are the
requests for an initial segment of the static candidate list (so each
candidate is attempted at most once, in list order), and every call except
possibly the last selected no wallet (the first success terminates the
loop). -/
theorem C2_single_wallet_set (e : Env) (a : Api) :
    ((mainFinal e a).ops.count ApiOp.createWalletSet ≤ 1 ∧
     (walletCalls (mainFinal e a).ops ≠ [] →
        (mainFinal e a).ops.head? = some ApiOp.createWalletSet) ∧
     ∃ wsid k, k ≤ blockchainsFinal.length ∧
       walletCalls (mainFinal e a).ops =
         (blockchainsFinal.take k).map (mkReq wsid) ∧
       ∀ r ∈ (walletCalls (mainFinal e a).ops).dropLast,
         firstWallet (a.createWallet r) = none) ∧
    ((mainUseExisting e a).ops.count ApiOp.createWalletSet ≤ 1 ∧
     (walletCalls (mainUseExisting e a).ops ≠ [] →
        (mainUseExisting e a).ops.head? = some ApiOp.createWalletSet) ∧
     ∃ wsid k, k ≤ blockchainsUseExisting.length ∧
       walletCalls (mainUseExisting e a).ops =
         (blockchainsUseExisting.take k).map (mkReq wsid) ∧
       ∀ r ∈ (walletCalls (mainUseExisting e a).ops).dropLast,
         firstWallet (a.createWallet r) = none) := by
  constructor
  · cases hcred : truthy e.apiKey && truthy e.entitySecret
    · refine ⟨?_, ?_, "", 0, ?_, ?_, ?_⟩ <;>
        simp [mainFinal, hcred, walletCalls]
    · rcases hws : a.createWalletSet with ws | _ | _
      · obtain ⟨k, hk, hcalls, hdrop⟩ :=
          walletLoop_calls_take false tryLineFull "   ❌ Not available\n"
            a.createWallet ws.id blockchainsFinal
        rcases hL : walletLoop false tryLineFull "   ❌ Not available\n"
          a.createWallet ws.id blockchainsFinal with ⟨calls, out, res⟩
        rw [hL] at hcalls hdrop
        have hops : (mainFinal e a).ops =
            ApiOp.createWalletSet :: calls.map ApiOp.createWallet := by
          rcases res with ⟨w, b⟩ | _ | _ <;>
            simp [mainFinal, hcred, hws, hL]
        refine ⟨?_, ?_, ws.id, k, hk, ?_, ?_⟩
        · rw [hops]; simp [List.count_cons, count_walletSet_map]
        · intro _; rw [hops]; rfl
        · rw [hops, walletCalls_cons_map]; exact hcalls
        · rw [hops, walletCalls_cons_map]; exact hdrop
      · refine ⟨?_, ?_, "", 0, ?_, ?_, ?_⟩ <;>
          simp [mainFinal, hcred, hws, walletCalls]
      · refine ⟨?_, ?_, "", 0, ?_, ?_, ?_⟩ <;>
          simp [mainFinal, hcred, hws, walletCalls]
  · cases hcred : truthy e.apiKey && truthy e.entitySecret
    · refine ⟨?_, ?_, "", 0, ?_, ?_, ?_⟩ <;>
        simp [mainUseExisting, hcred, walletCalls]
    · rcases hws : a.createWalletSet with ws | _ | _
      · obtain ⟨k, hk, hcalls, hdrop⟩ :=
          walletLoop_calls_take true tryLineShort "   ❌ Failed\n"
            a.createWallet ws.id blockchainsUseExisting
        rcases hL : walletLoop true tryLineShort "   ❌ Failed\n"
          a.createWallet ws.id blockchainsUseExisting with ⟨calls, out, res⟩
        rw [hL] at hcalls hdrop
        have hops : (mainUseExisting e a).ops =
            ApiOp.createWalletSet :: calls.map ApiOp.createWallet := by
          rcases res with ⟨w, b⟩ | _ | _ <;>
            simp [mainUseExisting, hcred, hws, hL]
        refine ⟨?_, ?_, ws.id, k, hk, ?_, ?_⟩
        · rw [hops]; simp [List.count_cons, count_walletSet_map]
        · intro _; rw [hops]; rfl
        · rw [hops, walletCalls_cons_map]; exact hcalls
        · rw [hops, walletCalls_cons_map]; exact hdrop
      · refine ⟨?_, ?_, "", 0, ?_, ?_, ?_⟩ <;>
          simp [mainUseExisting, hcred, hws, walletCalls]
      · refine ⟨?_, ?_, "", 0, ?_, ?_, ?_⟩ <;>
          simp [mainUseExisting, hcred, hws, walletCalls]

/-- C2 witness: the invariant at a concrete run in which every candidate
fails. -/
theorem C2_witness :
    ((mainFinal envFull apiAllApiFail).ops.count ApiOp.createWalletSet ≤ 1 ∧
     (walletCalls (mainFinal envFull apiAllApiFail).ops ≠ [] →
        (mainFinal envFull apiAllApiFail).ops.head? =
          some ApiOp.createWalletSet) ∧
     ∃ wsid k, k ≤ blockchainsFinal.length ∧
       walletCalls (mainFinal envFull apiAllApiFail).ops =
         (blockchainsFinal.take k).map (mkReq wsid) ∧
       ∀ r ∈ (walletCalls (mainFinal envFull apiAllApiFail).ops).dropLast,
         firstWallet (apiAllApiFail.createWallet r) = none) ∧
    ((mainUseExisting envFull apiAllApiFail).ops.count
        ApiOp.createWalletSet ≤ 1 ∧
     (walletCalls (mainUseExisting envFull apiAllApiFail).ops ≠ [] →
        (mainUseExisting envFull apiAllApiFail).ops.head? =
          some ApiOp.createWalletSet) ∧
     ∃ wsid k, k ≤ blockchainsUseExisting.length ∧
       walletCalls (mainUseExisting envFull apiAllApiFail).ops =
         (blockchainsUseExisting.take k).map (mkReq wsid) ∧
       ∀ r ∈ (walletCalls
           (mainUseExisting envFull apiAllApiFail).ops).dropLast,
         firstWallet (apiAllApiFail.createWallet r) = none) :=
  C2_single_wallet_set envFull apiAllApiFail

/-- C3 counterexample: a run of `circle_final_setup.py` in which all four
candidates are attempted and every attempt fails — the first three with
`ApiException`, the last with a non-`ApiException` error — yet the
exhaustion message is never printed: the last error escapes the loop to
the outer handler. Even so, no wallet is selected and `main` returns 1. -/
theorem C3_counterexample :
    walletCalls (mainFinal envFull apiLastRaisesOther).ops =
      blockchainsFinal.map (mkReq "ws-1") ∧
    (∀ r ∈ walletCalls (mainFinal envFull apiLastRaisesOther).ops,
      firstWallet (apiLastRaisesOther.createWallet r) = none) ∧
    exhaustMsgFinal ∉ (mainFinal envFull apiLastRaisesOther).output ∧
    (mainFinal envFull apiLastRaisesOther).wallet = none ∧
    (mainFinal envFull apiLastRaisesOther).mainReturn = some 1 := by
  decide

/-- C3 amended: when the run reaches the candidate loop and every
candidate's attempt fails as a per-candidate failure the loop survives
(a caught exception — only `ApiException` in `circle_final_setup.py` —
or a normal response selecting no wallet), each script signals exhaustion
(prints its fixed exhaustion message and takes its failure exit from
`main`) without selecting a wallet and without writing a wallet id,
address or blockchain to the configuration store; on the empty candidate
list the loop exhausts immediately. -/
theorem C3_exhaustion (e : Env) (a : Api) (gen : String) (ws : WalletSet)
    (hcred : (truthy e.apiKey && truthy e.entitySecret) = true)
    (hreg : a.registerOk = true)
    (hws : a.createWalletSet = .ok ws)
    (hfailF : ∀ c ∈ blockchainsFinal,
      perCandidateFailure false (a.createWallet (mkReq ws.id c)) = true)
    (hfailS : ∀ c ∈ blockchainsSetup,
      perCandidateFailure true (a.createWallet (mkReq ws.id c)) = true)
    (hfailU : ∀ c ∈ blockchainsUseExisting,
      perCandidateFailure true (a.createWallet (mkReq ws.id c)) = true) :
    (noWalletWritten (mainFinal e a) ∧
      exhaustMsgFinal ∈ (mainFinal e a).output ∧
      (mainFinal e a).mainReturn = some 1) ∧
    (noWalletWritten (mainSetup e a gen) ∧
      exhaustMsgFinal ∈ (mainSetup e a gen).output ∧
      (mainSetup e a gen).mainReturn = none) ∧
    (noWalletWritten (mainUseExisting e a) ∧
      exhaustMsgUseExisting ∈ (mainUseExisting e a).output ∧
      (mainUseExisting e a).mainReturn = none) ∧
    ∀ (ca : Bool) (tm : Cand → String) (fm : String)
      (api : CreateWalletRequest → CallOutcome) (wsid : String),
      walletLoop ca tm fm api wsid [] = ([], [], .exhausted) := by
  have hkey : truthy e.apiKey = true := ((Bool.and_eq_true _ _).mp hcred).1
  refine ⟨?_, ?_, ?_, fun ca tm fm api wsid => rfl⟩
  · obtain ⟨h1, h2, h3⟩ :=
      walletLoop_all_fail false tryLineFull "   ❌ Not available\n"
        a.createWallet ws.id blockchainsFinal hfailF
    rcases hL : walletLoop false tryLineFull "   ❌ Not available\n"
      a.createWallet ws.id blockchainsFinal with ⟨calls, out, res⟩
    rw [hL] at h2
    simp only at h2
    subst h2
    refine ⟨⟨?_, ?_⟩, ?_, ?_⟩ <;>
      simp [mainFinal, hcred, hws, hL, noWalletWritten]
  · obtain ⟨h1, h2, h3⟩ :=
      walletLoop_all_fail true tryLineFull "   ❌ Not available\n"
        a.createWallet ws.id blockchainsSetup hfailS
    rcases hL : walletLoop true tryLineFull "   ❌ Not available\n"
      a.createWallet ws.id blockchainsSetup with ⟨calls, out, res⟩
    rw [hL] at h2
    simp only at h2
    subst h2
    refine ⟨⟨?_, ?_⟩, ?_, ?_⟩ <;>
      simp [mainSetup, hkey, hreg, hws, hL, noWalletWritten]
  · obtain ⟨h1, h2, h3⟩ :=
      walletLoop_all_fail true tryLineShort "   ❌ Failed\n"
        a.createWallet ws.id blockchainsUseExisting hfailU
    rcases hL : walletLoop true tryLineShort "   ❌ Failed\n"
      a.createWallet ws.id blockchainsUseExisting with ⟨calls, out, res⟩
    rw [hL] at h2
    simp only at h2
    subst h2
    refine ⟨⟨?_, ?_⟩, ?_, ?_⟩ <;>
      simp [mainUseExisting, hcred, hws, hL, noWalletWritten]

/-- C3 witness: a concrete run in which every candidate raises
`ApiException`. -/
theorem C3_witness :
    (noWalletWritten (mainFinal envFull apiAllApiFail) ∧
      exhaustMsgFinal ∈ (mainFinal envFull apiAllApiFail).output ∧
      (mainFinal envFull apiAllApiFail).mainReturn = some 1) ∧
    (noWalletWritten (mainSetup envFull apiAllApiFail "gen") ∧
      exhaustMsgFinal ∈ (mainSetup envFull apiAllApiFail "gen").output ∧
      (mainSetup envFull apiAllApiFail "gen").mainReturn = none) ∧
    (noWalletWritten (mainUseExisting envFull apiAllApiFail) ∧
      exhaustMsgUseExisting ∈
        (mainUseExisting envFull apiAllApiFail).output ∧
      (mainUseExisting envFull apiAllApiFail).mainReturn = none) ∧
    ∀ (ca : Bool) (tm : Cand → String) (fm : String)
      (api : CreateWalletRequest → CallOutcome) (wsid : String),
      walletLoop ca tm fm api wsid [] = ([], [], .exhausted) :=
  C3_exhaustion envFull apiAllApiFail "gen" wsTest (by decide) (by decide)
    (by decide) (by decide) (by decide) (by decide)

/-- C6: after a successful run of `circle_final_setup.py`, the
configuration store maps CIRCLE_WALLET_SET_ID to the created wallet set's
id and CIRCLE_WALLET_ID, CIRCLE_WALLET_ADDRESS, CIRCLE_WALLET_BLOCKCHAIN
to the selected wallet's id, address and blockchain, and reloading the
store yields exactly these values unchanged. -/
theorem C6_store_roundtrip (e : Env) (a : Api) (σ : EnvStore)
    (ws : WalletSet) (w : Wallet) (b : String)
    (hcred : (truthy e.apiKey && truthy e.entitySecret) = true)
    (hws : a.createWalletSet = .ok ws)
    (hfound : (walletLoop false tryLineFull "   ❌ Not available\n"
      a.createWallet ws.id blockchainsFinal).2.2 = .found w b) :
    applyWrites (mainFinal e a).envWrites σ "CIRCLE_WALLET_SET_ID" =
      some ws.id ∧
    applyWrites (mainFinal e a).envWrites σ "CIRCLE_WALLET_ID" =
      some w.id ∧
    applyWrites (mainFinal e a).envWrites σ "CIRCLE_WALLET_ADDRESS" =
      some w.address ∧
    applyWrites (mainFinal e a).envWrites σ "CIRCLE_WALLET_BLOCKCHAIN" =
      some w.blockchain ∧
    reloadStore (applyWrites (mainFinal e a).envWrites σ) =
      applyWrites (mainFinal e a).envWrites σ := by
  rcases hL : walletLoop false tryLineFull "   ❌ Not available\n"
    a.createWallet ws.id blockchainsFinal with ⟨calls, out, res⟩
  rw [hL] at hfound
  simp only at hfound
  subst hfound
  refine ⟨?_, ?_, ?_, ?_, rfl⟩ <;>
    simp [mainFinal, hcred, hws, hL, applyWrites, setKey]

/-- C6 witness: a concrete successful run, looked up in an initially
empty store. -/
theorem C6_witness :
    applyWrites (mainFinal envFull (apiSecondSucceeds wTest)).envWrites
      (fun _ => none) "CIRCLE_WALLET_SET_ID" = some wsTest.id ∧
    applyWrites (mainFinal envFull (apiSecondSucceeds wTest)).envWrites
      (fun _ => none) "CIRCLE_WALLET_ID" = some wTest.id ∧
    applyWrites (mainFinal envFull (apiSecondSucceeds wTest)).envWrites
      (fun _ => none) "CIRCLE_WALLET_ADDRESS" = some wTest.address ∧
    applyWrites (mainFinal envFull (apiSecondSucceeds wTest)).envWrites
      (fun _ => none) "CIRCLE_WALLET_BLOCKCHAIN" = some wTest.blockchain ∧
    reloadStore (applyWrites
        (mainFinal envFull (apiSecondSucceeds wTest)).envWrites
        (fun _ => none)) =
      applyWrites (mainFinal envFull (apiSecondSucceeds wTest)).envWrites
        (fun _ => none) :=
  C6_store_roundtrip envFull (apiSecondSucceeds wTest) (fun _ => none)
    wsTest wTest "ETH-SEPOLIA" (by decide) (by decide) (by decide)

/-- C7 counterexample: candidate MATIC-AMOY fails, candidate ETH-SEPOLIA
succeeds with a wallet whose `blockchain` field is "ODD-CHAIN"; two calls
are made and the final wallet is that wallet, but the stored blockchain
value is the wallet's field "ODD-CHAIN", not the successful candidate's
network name "ETH-SEPOLIA" — the code stores `wallet.blockchain` and
never uses `used_blockchain`. -/
theorem C7_counterexample :
    walletCalls (mainFinal envFull (apiSecondSucceeds wOdd)).ops =
      [mkReq "ws-1" ("MATIC-AMOY", "SCA"),
       mkReq "ws-1" ("ETH-SEPOLIA", "EOA")] ∧
    (mainFinal envFull (apiSecondSucceeds wOdd)).wallet = some wOdd ∧
    applyWrites (mainFinal envFull (apiSecondSucceeds wOdd)).envWrites
      (fun _ => none) "CIRCLE_WALLET_BLOCKCHAIN" = some "ODD-CHAIN" ∧
    ("ODD-CHAIN" : String) ≠ "ETH-SEPOLIA" := by
  decide

/-- C7 amended: when the first candidate (MATIC-AMOY) raises
`ApiException` and the second (ETH-SEPOLIA) returns wallet W as the first
element of a non-empty list, `circle_final_setup.py` — and, on any run
whose entity-secret registration succeeded, `python_setup.py` — makes
exactly two create-wallet calls, the final wallet is W, and the stored
blockchain value is W's own `blockchain` field (equal to "ETH-SEPOLIA"
only when the service returns a wallet carrying the requested network). -/
theorem C7_two_calls (e : Env) (a : Api) (σ : EnvStore) (ws : WalletSet)
    (w : Wallet) (gen : String)
    (hcred : (truthy e.apiKey && truthy e.entitySecret) = true)
    (hws : a.createWalletSet = .ok ws)
    (hA : a.createWallet (mkReq ws.id ("MATIC-AMOY", "SCA")) =
      .apiException)
    (hB : firstWallet (a.createWallet (mkReq ws.id ("ETH-SEPOLIA", "EOA")))
      = some w) :
    (walletCalls (mainFinal e a).ops =
      [mkReq ws.id ("MATIC-AMOY", "SCA"),
       mkReq ws.id ("ETH-SEPOLIA", "EOA")] ∧
     (mainFinal e a).wallet = some w ∧
     applyWrites (mainFinal e a).envWrites σ "CIRCLE_WALLET_BLOCKCHAIN" =
       some w.blockchain) ∧
    (a.registerOk = true →
      walletCalls (mainSetup e a gen).ops =
        [mkReq ws.id ("MATIC-AMOY", "SCA"),
         mkReq ws.id ("ETH-SEPOLIA", "EOA")] ∧
      (mainSetup e a gen).wallet = some w ∧
      applyWrites (mainSetup e a gen).envWrites σ
        "CIRCLE_WALLET_BLOCKCHAIN" = some w.blockchain) := by
  have hpreF : ∀ p ∈ [(("MATIC-AMOY" : String), ("SCA" : String))],
      perCandidateFailure false (a.createWallet (mkReq ws.id p)) = true := by
    intro p hp
    rw [List.mem_singleton] at hp
    subst hp
    simp [perCandidateFailure, hA, firstWallet]
  have hpreT : ∀ p ∈ [(("MATIC-AMOY" : String), ("SCA" : String))],
      perCandidateFailure true (a.createWallet (mkReq ws.id p)) = true := by
    intro p hp
    rw [List.mem_singleton] at hp
    subst hp
    simp [perCandidateFailure, hA, firstWallet]
  constructor
  · obtain ⟨h1, h2⟩ :=
      walletLoop_first_success false tryLineFull "   ❌ Not available\n"
        a.createWallet ws.id [("MATIC-AMOY", "SCA")] ("ETH-SEPOLIA", "EOA")
        [("AVAX-FUJI", "EOA"), ("ARB-SEPOLIA", "EOA")] w hpreF hB
    have hlist : [(("MATIC-AMOY" : String), ("SCA" : String))] ++
        ("ETH-SEPOLIA", "EOA") ::
        [(("AVAX-FUJI" : String), ("EOA" : String)),
         ("ARB-SEPOLIA", "EOA")] = blockchainsFinal := by decide
    rw [hlist] at h1 h2
    rcases hL : walletLoop false tryLineFull "   ❌ Not available\n"
      a.createWallet ws.id blockchainsFinal with ⟨calls, out, res⟩
    rw [hL] at h1 h2
    simp only at h1 h2
    subst h2
    subst h1
    refine ⟨?_, ?_, ?_⟩
    · simp [mainFinal, hcred, hws, hL, walletCalls, List.filterMap_cons,
        mkReq]
    · simp [mainFinal, hcred, hws, hL]
    · simp [mainFinal, hcred, hws, hL, applyWrites, setKey]
  · intro hreg
    have hkey : truthy e.apiKey = true := ((Bool.and_eq_true _ _).mp hcred).1
    obtain ⟨h1, h2⟩ :=
      walletLoop_first_success true tryLineFull "   ❌ Not available\n"
        a.createWallet ws.id [("MATIC-AMOY", "SCA")] ("ETH-SEPOLIA", "EOA")
        [("AVAX-FUJI", "EOA"), ("ARB-SEPOLIA", "EOA")] w hpreT hB
    have hlist : [(("MATIC-AMOY" : String), ("SCA" : String))] ++
        ("ETH-SEPOLIA", "EOA") ::
        [(("AVAX-FUJI" : String), ("EOA" : String)),
         ("ARB-SEPOLIA", "EOA")] = blockchainsSetup := by decide
    rw [hlist] at h1 h2
    rcases hL : walletLoop true tryLineFull "   ❌ Not available\n"
      a.createWallet ws.id blockchainsSetup with ⟨calls, out, res⟩
    rw [hL] at h1 h2
    simp only at h1 h2
    subst h2
    subst h1
    refine ⟨?_, ?_, ?_⟩
    · simp [mainSetup, hkey, hreg, hws, hL, walletCalls, List.filterMap_cons,
        mkReq]
    · simp [mainSetup, hkey, hreg, hws, hL]
    · simp [mainSetup, hkey, hreg, hws, hL, applyWrites, setKey]

/-- C7 witness: a concrete run where MATIC-AMOY raises `ApiException`
and ETH-SEPOLIA returns the single wallet `wTest`, for both scripts. -/
theorem C7_witness :
    (walletCalls (mainFinal envFull (apiSecondSucceeds wTest)).ops =
      [mkReq wsTest.id ("MATIC-AMOY", "SCA"),
       mkReq wsTest.id ("ETH-SEPOLIA", "EOA")] ∧
     (mainFinal envFull (apiSecondSucceeds wTest)).wallet = some wTest ∧
     applyWrites (mainFinal envFull (apiSecondSucceeds wTest)).envWrites
       (fun _ => none) "CIRCLE_WALLET_BLOCKCHAIN" =
       some wTest.blockchain) ∧
    ((apiSecondSucceeds wTest).registerOk = true →
      walletCalls (mainSetup envFull (apiSecondSucceeds wTest) "gen").ops =
        [mkReq wsTest.id ("MATIC-AMOY", "SCA"),
         mkReq wsTest.id ("ETH-SEPOLIA", "EOA")] ∧
      (mainSetup envFull (apiSecondSucceeds wTest) "gen").wallet =
        some wTest ∧
      applyWrites
        (mainSetup envFull (apiSecondSucceeds wTest) "gen").envWrites
        (fun _ => none) "CIRCLE_WALLET_BLOCKCHAIN" =
        some wTest.blockchain) :=
  C7_two_calls envFull (apiSecondSucceeds wTest) (fun _ => none) wsTest
    wTest "gen" (by decide) (by decide) (by decide) (by decide)

/-- C8 counterexample: in a run of `circle_final_setup.py` where every
candidate was attempted and failed, the exhaustion failure line is the
fixed string "❌ Could not create wallet on any blockchain", which does
not name the attempted candidate MATIC-AMOY (nor any other). -/
theorem C8_counterexample :
    (mainFinal envFull apiAllApiFail).wallet = none ∧
    exhaustMsgFinal ∈ (mainFinal envFull apiAllApiFail).output ∧
    mkReq "ws-1" ("MATIC-AMOY", "SCA") ∈
      walletCalls (mainFinal envFull apiAllApiFail).ops ∧
    mentions exhaustMsgFinal "MATIC-AMOY" = false := by
  decide

/-- C8 amended: when every candidate's attempt fails as a per-candidate
failure, `circle_final_setup.py` and `python_use_existing.py` print their
fixed exhaustion message, which names none of the candidates; each
attempted candidate is instead named in its own earlier per-attempt
"Trying ..." output line. -/
theorem C8_exhaustion_message (e : Env) (a : Api) (ws : WalletSet)
    (hcred : (truthy e.apiKey && truthy e.entitySecret) = true)
    (hws : a.createWalletSet = .ok ws)
    (hfailF : ∀ c ∈ blockchainsFinal,
      perCandidateFailure false (a.createWallet (mkReq ws.id c)) = true)
    (hfailU : ∀ c ∈ blockchainsUseExisting,
      perCandidateFailure true (a.createWallet (mkReq ws.id c)) = true) :
    (exhaustMsgFinal ∈ (mainFinal e a).output ∧
     (∀ c ∈ blockchainsFinal, tryLineFull c ∈ (mainFinal e a).output ∧
        mentions (tryLineFull c) c.1 = true) ∧
     ∀ c ∈ blockchainsFinal, mentions exhaustMsgFinal c.1 = false) ∧
    (exhaustMsgUseExisting ∈ (mainUseExisting e a).output ∧
     (∀ c ∈ blockchainsUseExisting,
        tryLineShort c ∈ (mainUseExisting e a).output ∧
        mentions (tryLineShort c) c.1 = true) ∧
     ∀ c ∈ blockchainsUseExisting,
       mentions exhaustMsgUseExisting c.1 = false) := by
  constructor
  · obtain ⟨h1, h2, h3⟩ :=
      walletLoop_all_fail false tryLineFull "   ❌ Not available\n"
        a.createWallet ws.id blockchainsFinal hfailF
    rcases hL : walletLoop false tryLineFull "   ❌ Not available\n"
      a.createWallet ws.id blockchainsFinal with ⟨calls, out, res⟩
    rw [hL] at h2 h3
    simp only at h2 h3
    subst h2
    have hout : (mainFinal e a).output = out ++ [exhaustMsgFinal] := by
      simp [mainFinal, hcred, hws, hL]
    refine ⟨?_, ?_, by decide⟩
    · rw [hout]; simp
    · intro c hc
      refine ⟨?_, ?_⟩
      · rw [hout]
        exact List.mem_append_left _ (h3 c hc)
      · revert c
        decide
  · obtain ⟨h1, h2, h3⟩ :=
      walletLoop_all_fail true tryLineShort "   ❌ Failed\n"
        a.createWallet ws.id blockchainsUseExisting hfailU
    rcases hL : walletLoop true tryLineShort "   ❌ Failed\n"
      a.createWallet ws.id blockchainsUseExisting with ⟨calls, out, res⟩
    rw [hL] at h2 h3
    simp only at h2 h3
    subst h2
    have hout : (mainUseExisting e a).output =
        out ++ [exhaustMsgUseExisting] := by
      simp [mainUseExisting, hcred, hws, hL]
    refine ⟨?_, ?_, by decide⟩
    · rw [hout]; simp
    · intro c hc
      refine ⟨?_, ?_⟩
      · rw [hout]
        exact List.mem_append_left _ (h3 c hc)
      · revert c
        decide

/-- C8 witness: a concrete all-failing run. -/
theorem C8_witness :
    (exhaustMsgFinal ∈ (mainFinal envFull apiAllApiFail).output ∧
     (∀ c ∈ blockchainsFinal,
        tryLineFull c ∈ (mainFinal envFull apiAllApiFail).output ∧
        mentions (tryLineFull c) c.1 = true) ∧
     ∀ c ∈ blockchainsFinal, mentions exhaustMsgFinal c.1 = false) ∧
    (exhaustMsgUseExisting ∈
        (mainUseExisting envFull apiAllApiFail).output ∧
     (∀ c ∈ blockchainsUseExisting,
        tryLineShort c ∈ (mainUseExisting envFull apiAllApiFail).output ∧
        mentions (tryLineShort c) c.1 = true) ∧
     ∀ c ∈ blockchainsUseExisting,
       mentions exhaustMsgUseExisting c.1 = false) :=
  C8_exhaustion_message envFull apiAllApiFail wsTest (by decide) (by decide)
    (by decide) (by decide)

/-- C10: a create-wallet call that returns normally but selects no wallet
(missing or empty wallet list) makes the loop advance to the next
candidate exactly as a caught error does — same calls, same result — and
a run of `circle_final_setup.py` in which every candidate returns
normally with no wallet reaches the exhaustion failure although no call
ever raised. -/
theorem C10_empty_ok_advances (ca : Bool) (tm : Cand → String)
    (fm : String) (api : CreateWalletRequest → CallOutcome)
    (wsid : String) (c : Cand) (l : List Cand) (e : Env) (a : Api)
    (ws : WalletSet)
    (hok : returnsNormally (api (mkReq wsid c)) = true)
    (hempty : firstWallet (api (mkReq wsid c)) = none)
    (hcred : (truthy e.apiKey && truthy e.entitySecret) = true)
    (hws : a.createWalletSet = .ok ws)
    (hall : ∀ c' ∈ blockchainsFinal,
      returnsNormally (a.createWallet (mkReq ws.id c')) = true ∧
      firstWallet (a.createWallet (mkReq ws.id c')) = none) :
    ((walletLoop ca tm fm api wsid (c :: l)).1 =
        mkReq wsid c :: (walletLoop ca tm fm api wsid l).1 ∧
      (walletLoop ca tm fm api wsid (c :: l)).2.2 =
        (walletLoop ca tm fm api wsid l).2.2) ∧
    ((mainFinal e a).wallet = none ∧
      exhaustMsgFinal ∈ (mainFinal e a).output ∧
      (mainFinal e a).mainReturn = some 1 ∧
      ∀ r ∈ walletCalls (mainFinal e a).ops,
        returnsNormally (a.createWallet r) = true) := by
  have hpcf : ∀ (ca' : Bool) (o : CallOutcome), returnsNormally o = true →
      firstWallet o = none → perCandidateFailure ca' o = true := by
    intro ca' o h1 h2
    rcases o with d | _ | _
    · simp [perCandidateFailure, h2]
    · simp [returnsNormally] at h1
    · simp [returnsNormally] at h1
  constructor
  · obtain ⟨t, ht⟩ := walletLoop_step_skip ca tm fm api wsid c l
      (hpcf ca _ hok hempty)
    rw [ht]
    exact ⟨rfl, rfl⟩
  · have hfail : ∀ c' ∈ blockchainsFinal,
        perCandidateFailure false (a.createWallet (mkReq ws.id c')) = true :=
      fun c' hc' => hpcf false _ (hall c' hc').1 (hall c' hc').2
    obtain ⟨h1, h2, h3⟩ :=
      walletLoop_all_fail false tryLineFull "   ❌ Not available\n"
        a.createWallet ws.id blockchainsFinal hfail
    rcases hL : walletLoop false tryLineFull "   ❌ Not available\n"
      a.createWallet ws.id blockchainsFinal with ⟨calls, out, res⟩
    rw [hL] at h1 h2
    simp only at h1 h2
    subst h2
    subst h1
    have hops : walletCalls (mainFinal e a).ops =
        blockchainsFinal.map (mkReq ws.id) := by
      have h4 : (mainFinal e a).ops = ApiOp.createWalletSet ::
          (blockchainsFinal.map (mkReq ws.id)).map ApiOp.createWallet := by
        simp [mainFinal, hcred, hws, hL]
      rw [h4, walletCalls_cons_map]
    refine ⟨?_, ?_, ?_, ?_⟩
    · simp [mainFinal, hcred, hws, hL]
    · simp [mainFinal, hcred, hws, hL]
    · simp [mainFinal, hcred, hws, hL]
    · rw [hops]
      intro r hr
      obtain ⟨c', hc', hrc⟩ := List.mem_map.mp hr
      subst hrc
      exact (hall c' hc').1

/-- C10 witness: a concrete run in which every call returns normally with
an empty wallet list. -/
theorem C10_witness :
    ((walletLoop false tryLineFull "   ❌ Not available\n"
        apiAllEmptyOk.createWallet "ws-1"
        (("MATIC-AMOY", "SCA") :: [("ETH-SEPOLIA", "EOA")])).1 =
        mkReq "ws-1" ("MATIC-AMOY", "SCA") ::
          (walletLoop false tryLineFull "   ❌ Not available\n"
            apiAllEmptyOk.createWallet "ws-1"
            [("ETH-SEPOLIA", "EOA")]).1 ∧
      (walletLoop false tryLineFull "   ❌ Not available\n"
        apiAllEmptyOk.createWallet "ws-1"
        (("MATIC-AMOY", "SCA") :: [("ETH-SEPOLIA", "EOA")])).2.2 =
        (walletLoop false tryLineFull "   ❌ Not available\n"
          apiAllEmptyOk.createWallet "ws-1"
          [("ETH-SEPOLIA", "EOA")]).2.2) ∧
    ((mainFinal envFull apiAllEmptyOk).wallet = none ∧
      exhaustMsgFinal ∈ (mainFinal envFull apiAllEmptyOk).output ∧
      (mainFinal envFull apiAllEmptyOk).mainReturn = some 1 ∧
      ∀ r ∈ walletCalls (mainFinal envFull apiAllEmptyOk).ops,
        returnsNormally (apiAllEmptyOk.createWallet r) = true) :=
  C10_empty_ok_advances false tryLineFull "   ❌ Not available\n"
    apiAllEmptyOk.createWallet "ws-1" ("MATIC-AMOY", "SCA")
    [("ETH-SEPOLIA", "EOA")] envFull apiAllEmptyOk wsTest (by decide)
    (by decide) (by decide) (by decide) (by decide)

end NovaVault
